import Mathlib

/-!
Shallow embedding of the valuation engine of the valuer-assistant repository
(src/app/data_pipeline.py and src/app/prompt_template.py), together with
theorems settling the specification claims about it.

Python machine floats are modelled by rationals; the float power operator
used by the imported-vehicle depreciation is an explicit function parameter.
Python round is modelled as round-half-to-even on rationals.
-/

/-- Python built-in round to the nearest integer: round-half-to-even. -/
def pyRound (q : ℚ) : ℤ :=
  let f := ⌊q⌋
  let r := q - (f : ℚ)
  if r < 1/2 then f
  else if 1/2 < r then f + 1
  else if f % 2 = 0 then f else f + 1

/-- Python round(x, 2): round to two decimal places, half to even. -/
def round2 (q : ℚ) : ℚ := (pyRound (q * 100) : ℚ) / 100

/-- Python str.strip on whitespace. -/
def pyStrip (s : String) : String :=
  ⟨((s.data.dropWhile Char.isWhitespace).reverse.dropWhile Char.isWhitespace).reverse⟩

/-- Python str.lower. -/
def pyLower (s : String) : String := ⟨s.data.map Char.toLower⟩

/-- Python str.upper. -/
def pyUpper (s : String) : String := ⟨s.data.map Char.toUpper⟩

/-- Python `float(x or d)` on an optional numeric field: a missing value or a
zero value falls back to the default (Python treats 0 as falsy). -/
def pyOr (x : Option ℚ) (d : ℚ) : ℚ :=
  match x with
  | none => d
  | some v => if v = 0 then d else v

/-- Calendar date as used by the pipeline: the day of month is ignored by all
age computations, so only year and month are modelled. -/
structure CalDate where
  year : ℤ
  month : ℤ
deriving Repr, DecidableEq

/-- Month index of a date on the integer time axis. -/
def month_index (d : CalDate) : ℤ := d.year * 12 + d.month

/-- Lexicographic order on dates by (year, month): date d is not after date e. -/
def date_le (d e : CalDate) : Prop :=
  d.year < e.year ∨ (d.year = e.year ∧ d.month ≤ e.month)

instance (d e : CalDate) : Decidable (date_le d e) := by
  unfold date_le; infer_instance

/-- get_age_months from data_pipeline.py: vehicle age in months from the
registration date to today, day-of-month ignored. -/
def get_age_months (reg today : CalDate) : ℤ :=
  (today.year - reg.year) * 12 + (today.month - reg.month)

/-- get_age_months on an optional registration date: an unparsable or missing
date yields 0 (the except branch of the source). -/
def get_age_months_opt (reg : Option CalDate) (today : CalDate) : ℤ :=
  match reg with
  | none => 0
  | some d => get_age_months d today

/-- get_age_years from data_pipeline.py: age_months floor-divided by 12
(Python integer division floors). -/
def get_age_years_opt (reg : Option CalDate) (today : CalDate) : ℤ :=
  Int.fdiv (get_age_months_opt reg today) 12

/-- get_age_from_production_year from data_pipeline.py: current year minus the
production year, 0 when the production year is missing or non-numeric. -/
def get_age_from_production_year (today : CalDate) (prodYear : Option ℤ) : ℤ :=
  match prodYear with
  | none => 0
  | some y => today.year - y

/-- Row of the graph-method table (columns AgeMonths, Mileage,
AgeDepreciation, MileageDepreciation, coerced to numeric at load time). -/
structure GraphRow where
  ageMonths : ℚ
  mileage : ℚ
  ageDepreciation : ℚ
  mileageDepreciation : ℚ
deriving Repr, DecidableEq

/-- Row of the economic-life table (columns AgeYears, DepreciationPercent). -/
structure EconRow where
  ageYears : ℚ
  depreciationPercent : ℚ
deriving Repr, DecidableEq

/-- Nearest-row selection, modelling `(series - target).abs().argsort().iat[0]`
followed by `.iloc`: the first row attaining the minimal key value wins ties. -/
def nearestBy {α : Type} (f : α → ℚ) (x : α) (xs : List α) : α :=
  xs.foldl (fun best r => if f r < f best then r else best) x

/-- apply_graph_method from data_pipeline.py. The interactive private/commercial
console prompt (asked only when mileage exceeds 10000) is modelled by the
`usage` argument, holding the string the operator would type. -/
def apply_graph_method (graph : List GraphRow) (usage : String)
    (base_price mileage : ℚ) (age_months : ℤ) : ℚ :=
  match graph with
  | [] => base_price
  | g :: gs =>
    let max_mileage_threshold : ℚ :=
      if mileage > 10000 then
        if pyLower (pyStrip usage) = "commercial" then 20000 else 10000
      else 10000
    let age_row := nearestBy (fun r => |r.ageMonths - (age_months : ℚ)|) g gs
    let age_retention := age_row.ageDepreciation
    let mileage_row := nearestBy (fun r => |r.mileage - mileage|) g gs
    let mileage_retention := mileage_row.mileageDepreciation
    let avg_retention :=
      if mileage > max_mileage_threshold then age_retention
      else (mileage_retention + age_retention) / 2
    round2 (base_price * (avg_retention / 100))

/-- apply_economic_life from data_pipeline.py. After the nearest age row is
selected, the source computes `retention_percent = max(dep_percent)` where
dep_percent is a plain float: Python max applied to a non-iterable float raises
TypeError, so the rest of the function body is unreachable whenever the table
is non-empty. The raised exception is modelled by the error branch. -/
def apply_economic_life (econ : List EconRow) (today : CalDate)
    (base_price : ℚ) (reg_date : Option CalDate) : Except String ℚ :=
  match econ with
  | [] => Except.ok base_price
  | e :: es =>
    let age_years := get_age_years_opt reg_date today
    let row := nearestBy (fun r => |r.ageYears - (age_years : ℚ)|) e es
    let dep_percent := row.depreciationPercent
    let _ := dep_percent
    Except.error "TypeError: float object is not iterable"

/-- calculate_local_value from data_pipeline.py: below 3 months no depreciation,
below 36 months the Graph Method, otherwise the Economic Life method. -/
def calculate_local_value (econ : List EconRow) (graph : List GraphRow)
    (usage : String) (today : CalDate) (base_price mileage : ℚ)
    (reg_date : Option CalDate) : Except String ℚ :=
  let age_months := get_age_months_opt reg_date today
  if age_months < 3 then Except.ok (round2 base_price)
  else if age_months < 36 then
    Except.ok (apply_graph_method graph usage base_price mileage age_months)
  else apply_economic_life econ today base_price reg_date

/-- Currency-code to rate map, as returned by an FX provider. -/
abbrev RateMap := List (String × ℚ)

/-- Process-wide mutable state of get_fx_rates: the memo cell installed by the
functools lru_cache decorator (maxsize 1, zero-argument function, so a single
result cell) plus the module-level _fx_cache dictionary. -/
structure FxState where
  lruMemo : Option RateMap
  cacheRates : Option RateMap
  cacheTimestamp : Option ℤ
deriving Repr, DecidableEq

/-- Environment of one get_fx_rates call: the wall clock (in hours) and the
outcome of each provider request. none models a network or JSON failure or a
response without a rates object; some m models a response whose rates are m. -/
structure FxCall where
  now : ℤ
  provA : Option RateMap
  provB : Option RateMap
deriving Repr, DecidableEq

/-- Outcome of one get_fx_rates call: the returned rates, the state afterwards,
and whether each provider was actually contacted during the call. -/
structure FxResult where
  rates : RateMap
  state : FxState
  triedA : Bool
  triedB : Bool
deriving Repr, DecidableEq

/-- Provider response check from the source: `"rates" in data and "KES" in
data["rates"]`, with the missing-rates case folded into the Option. -/
def fxUsable (resp : Option RateMap) : Option RateMap :=
  match resp with
  | none => none
  | some data => if (data.lookup "KES").isSome then some data else none

/-- get_fx_rates from data_pipeline.py, decorated with lru_cache(maxsize=1).
A memo hit returns the stored result without executing the body (so neither
provider is contacted); otherwise the body runs: the 24h _fx_cache check, the
primary provider, the secondary provider, and finally the constant fallback map
KES to 129.0 (which updates _fx_cache in the success cases only, but is always
stored in the lru memo along with every other return value). -/
def get_fx_rates (env : FxCall) (s : FxState) : FxResult :=
  match s.lruMemo with
  | some m => { rates := m, state := s, triedA := false, triedB := false }
  | none =>
    let cacheFresh : Bool :=
      match s.cacheRates, s.cacheTimestamp with
      | some m, some ts => decide (m ≠ []) && decide (env.now - ts < 24)
      | _, _ => false
    if cacheFresh then
      let m := s.cacheRates.getD []
      { rates := m, state := { s with lruMemo := some m },
        triedA := false, triedB := false }
    else
      match fxUsable env.provA with
      | some data =>
        { rates := data,
          state := { lruMemo := some data, cacheRates := some data,
                     cacheTimestamp := some env.now },
          triedA := true, triedB := false }
      | none =>
        match fxUsable env.provB with
        | some data =>
          { rates := data,
            state := { lruMemo := some data, cacheRates := some data,
                       cacheTimestamp := some env.now },
            triedA := true, triedB := true }
        | none =>
          { rates := [("KES", 129)],
            state := { s with lruMemo := some [("KES", 129)] },
            triedA := true, triedB := true }

/-- convert_to_kes from data_pipeline.py, with the rates already resolved by
get_fx_rates passed in explicitly. -/
def convert_to_kes (rates : RateMap) (price : ℚ) (currency : String) : ℚ :=
  if price = 0 then 0
  else
    let cur := pyUpper (if currency = "" then "USD" else currency)
    if cur = "KES" then round2 price
    else
      let rate := (rates.lookup "KES").getD 129
      round2 (price * rate)

/-- Input record of the valuation run: the report fields the depreciation
engine reads. Optional numeric fields model Python dict.get returning None. -/
structure VehicleReport where
  originCountry : String
  productionYear : Option ℤ
  basePrice : Option ℚ
  duty : Option ℚ
  profitMargin : Option ℚ
  odoReading : Option ℚ
  regDate : Option CalDate
  faceValueAverage : Option ℚ
  aftermarketAdditions : Option ℚ
  finalDepreciatedValuePreset : Option ℚ
deriving Repr, DecidableEq

/-- Age in years since registration as computed inside calculate_imported_value:
`age_months / 12.0 if age_months else 0.0` (true division, a rational). -/
def imported_age_years (today : CalDate) (r : VehicleReport) : ℚ :=
  let m := get_age_months_opt r.regDate today
  if m = 0 then 0 else (m : ℚ) / 12

/-- Manufacture age as computed inside calculate_imported_value: None when the
production year is falsy (missing, zero) or non-numeric. -/
def manufacture_age_years (today : CalDate) (r : VehicleReport) : Option ℤ :=
  match r.productionYear with
  | none => none
  | some py => if py = 0 then none else some (today.year - py)

/-- Face-value guard of calculate_imported_value:
`if manufacture_age_years and manufacture_age_years >= 14` (a zero age is
falsy and fails the guard). -/
def is_face_value (today : CalDate) (r : VehicleReport) : Bool :=
  match manufacture_age_years today r with
  | none => false
  | some a => decide (a ≠ 0) && decide (14 ≤ a)

/-- Result of calculate_imported_value, instrumented with the list of
depreciation_method values written to the report, whether convert_to_kes was
invoked, and the landed cost used on the non-face-value paths. -/
structure ImportedResult where
  value : Option ℚ
  writes : List String
  usedFx : Bool
  landed : Option ℚ
deriving Repr, DecidableEq

/-- calculate_imported_value from data_pipeline.py. fpow models the Python
float power operator used for compound depreciation; rates models the map
resolved by get_fx_rates inside convert_to_kes. -/
def calculate_imported_value (today : CalDate) (fpow : ℚ → ℚ → ℚ)
    (rates : RateMap) (r : VehicleReport) : ImportedResult :=
  let duty_kes := pyOr r.duty 0
  let profit_margin := pyOr r.profitMargin (1/10)
  let mileage := pyOr r.odoReading 0
  let age_months := get_age_months_opt r.regDate today
  let age_years := imported_age_years today r
  if is_face_value today r then
    let face_value := pyOr r.faceValueAverage 0
    let aftermarket_additions := pyOr r.aftermarketAdditions 0
    { value := some (round2 (face_value + aftermarket_additions)),
      writes := ["Face Value Method (manufacture_age ≥ 14)"],
      usedFx := false, landed := none }
  else
    let base_price := pyOr r.basePrice 0
    if base_price ≤ 0 then
      { value := none, writes := [], usedFx := false, landed := none }
    else
      let conv :=
        if age_years ≤ 7 then (convert_to_kes rates base_price "USD", true)
        else (base_price, false)
      let landed_kes := conv.1
      let total_kes := (landed_kes + duty_kes) * (1 + profit_margin)
      if age_years ≤ 7 ∧ age_months < 3 then
        { value := some (round2 total_kes),
          writes := ["Imported New Entry (no depreciation)"],
          usedFx := conv.2, landed := some landed_kes }
      else
        let dep_rate : ℚ :=
          if mileage < 10000 then 5/100
          else if mileage ≤ 20000 then 75/1000
          else 1/10
        let depreciated_value := total_kes * fpow (1 - dep_rate) age_years
        { value := some (round2 depreciated_value), writes := [],
          usedFx := conv.2, landed := some landed_kes }

/-- Sequence of depreciation_method writes performed by one get_vehicle_data
run: the valuation block (face-value locals and calculate_imported_value for
imports; calculate_local_value writes no method and any exception it raises is
caught), followed by the Graph or Economic Life diagnostics block, which runs
only for local, non-face-value reports with a registration date and no
pre-existing final_depreciated_value. -/
def get_vehicle_data_method_writes (today : CalDate) (fpow : ℚ → ℚ → ℚ)
    (rates : RateMap) (r : VehicleReport) : List String :=
  let originLocal := pyLower (pyStrip r.originCountry) = "kenya"
  let prod_age_years := get_age_from_production_year today r.productionYear
  let valuationWrites :=
    if originLocal then
      if prod_age_years ≥ 14 then ["Face Value Method (manufacture_age ≥ 14)"]
      else []
    else (calculate_imported_value today fpow rates r).writes
  let diagnosticsWrites :=
    if r.finalDepreciatedValuePreset.isSome then []
    else
      match r.regDate with
      | none => []
      | some _ =>
        if ¬ originLocal then []
        else if prod_age_years ≥ 14 then []
        else if get_age_months_opt r.regDate today < 36 then
          ["Graph Method (<3 years)"]
        else ["Economic Life Method (≥3 years)"]
  valuationWrites ++ diagnosticsWrites

/-- Inner loop of difflib find_longest_match (no junk, as called with junk
None on short strings): for one position i of the first sequence, scan the
candidate positions j of the second sequence in ascending order, extend runs
recorded in j2len, and update the best block on strict improvement. -/
def flmInner (ai : Char) (b : List Char) (i : ℕ) (j2len : ℕ → ℕ) :
    List ℕ → ((ℕ → ℕ) × ℕ × ℕ × ℕ) → ((ℕ → ℕ) × ℕ × ℕ × ℕ)
  | [], acc => acc
  | j :: js, (newj2len, besti, bestj, bestk) =>
    if b.get? j = some ai then
      let k := (if j = 0 then 0 else j2len (j - 1)) + 1
      let newj2len' : ℕ → ℕ := fun x => if x = j then k else newj2len x
      if k > bestk then
        flmInner ai b i j2len js (newj2len', i + 1 - k, j + 1 - k, k)
      else
        flmInner ai b i j2len js (newj2len', besti, bestj, bestk)
    else flmInner ai b i j2len js (newj2len, besti, bestj, bestk)

/-- Outer loop of difflib find_longest_match over the positions of the first
sequence, threading the j2len table between iterations. -/
def flmOuter (b : List Char) (blo bhi : ℕ) (a : List Char) :
    List ℕ → (ℕ → ℕ) → (ℕ × ℕ × ℕ) → ℕ × ℕ × ℕ
  | [], _, best => best
  | i :: is, j2len, best =>
    match a.get? i with
    | none => best
    | some ai =>
      let step := flmInner ai b i j2len (List.range' blo (bhi - blo))
        ((fun _ => 0), best)
      flmOuter b blo bhi a is step.1 step.2

/-- difflib SequenceMatcher find_longest_match on a[alo:ahi] and b[blo:bhi]
with no junk: the longest matching block, earliest in a then earliest in b. -/
def find_longest_match (a b : List Char) (alo ahi blo bhi : ℕ) : ℕ × ℕ × ℕ :=
  flmOuter b blo bhi a (List.range' alo (ahi - alo)) (fun _ => 0) (alo, blo, 0)

/-- Total size of the matching blocks of difflib get_matching_blocks: recurse
on both sides of the longest block. The fuel argument only bounds the
recursion depth; the initial fuel used below always suffices because every
recursive call strictly shrinks the spanned intervals. -/
def matchingTotal (a b : List Char) : ℕ → ℕ → ℕ → ℕ → ℕ → ℕ
  | 0, _, _, _, _ => 0
  | fuel + 1, alo, ahi, blo, bhi =>
    let ijk := find_longest_match a b alo ahi blo bhi
    if ijk.2.2 = 0 then 0
    else
      matchingTotal a b fuel alo ijk.1 blo ijk.2.1 + ijk.2.2 +
        matchingTotal a b fuel (ijk.1 + ijk.2.2) ahi (ijk.2.1 + ijk.2.2) bhi

/-- Number of matching characters M between two sequences, per difflib. -/
def sm_matches (a b : List Char) : ℕ :=
  matchingTotal a b (a.length + b.length + 1) 0 a.length 0 b.length

/-- difflib SequenceMatcher similarity: 2M / T, and 1.0 when both sequences
are empty (T = 0). -/
def sm_similarity (a b : String) : ℚ :=
  let la := a.data.length
  let lb := b.data.length
  if la + lb = 0 then 1
  else (2 * (sm_matches a.data b.data) : ℚ) / ((la : ℚ) + (lb : ℚ))

/-- fuzzy_match from data_pipeline.py: SequenceMatcher ratio scaled to an
integer score from 0 to 10. -/
def fuzzy_match (a b : String) : ℤ := pyRound (sm_similarity a b * 10)

/-- Truthy filtering of the candidate image URL list: Python filter(None, xs)
drops both None entries and empty strings. -/
def truthy_urls (images : List (Option String)) : List String :=
  (images.filterMap id).filter (fun s => s ≠ "")

/-- Loop of try_multiple_ocr_sources, instrumented with the list of URLs that
were fetched and OCRd, in order. ocrText maps a URL to the normalized text
that perform_ocr_on_image extracts for it (empty on fetch or OCR failure). -/
def ocrLoop (ocrText : String → String) (expected : String) :
    List String → String → ℤ → List String → (String × ℤ) × List String
  | [], best_text, best_score, fetched => ((best_text, best_score), fetched.reverse)
  | url :: rest, best_text, best_score, fetched =>
    let text := ocrText url
    let score := fuzzy_match expected text
    if score > best_score then
      ocrLoop ocrText expected rest text score (url :: fetched)
    else
      ocrLoop ocrText expected rest best_text best_score (url :: fetched)

/-- try_multiple_ocr_sources from data_pipeline.py: run OCR on every truthy
candidate URL and keep the result with the best fuzzy score against the
expected value, starting from the empty text with score 0. The second
component records which URLs were fetched. -/
def try_multiple_ocr_sources (ocrText : String → String)
    (images : List (Option String)) (expected : String) :
    (String × ℤ) × List String :=
  ocrLoop ocrText expected (truthy_urls images) "" 0 []

/-- prompt_demand_level_and_percent from prompt_template.py: levelInput is the
string the operator types at the demand prompt and pctInput the percent value
they would supply; an unrecognized level falls back to low, and the percent
prompt is reached only for high and very high. -/
def prompt_demand_level_and_percent (levelInput : String) (pctInput : ℚ) :
    String × ℚ :=
  let level0 := pyLower (pyStrip levelInput)
  let level :=
    if level0 ∈ (["low", "high", "very high"] : List String) then level0
    else "low"
  let pct : ℚ :=
    if level ∈ (["high", "very high"] : List String) then pctInput else 0
  (level, pct)

/-- apply_percent_adjustment from prompt_template.py. -/
def apply_percent_adjustment (value pct : ℚ) : ℚ :=
  value + value * (pct / 100)

/-- Demand-adjustment assignment of build_user_prompt once a basis value
exists: the pair (value_before_demand, value_after_demand) stored on the
report, both rounded to 2 decimals. -/
def demand_adjusted_values (basis : ℚ) (levelInput : String) (pctInput : ℚ) :
    ℚ × ℚ :=
  let lp := prompt_demand_level_and_percent levelInput pctInput
  (round2 basis, round2 (apply_percent_adjustment basis lp.2))

/-! Helper lemmas shared by the claim theorems. -/

/-- SequenceMatcher finds no matching characters when the first sequence is
empty. -/
theorem sm_matches_nil_left (b : List Char) : sm_matches [] b = 0 := by
  simp [sm_matches, matchingTotal, find_longest_match, flmOuter]

/-- Against an empty expected string, the fuzzy score is 10 for empty
extracted text and 0 for any non-empty text. -/
theorem fuzzy_match_empty_expected (t : String) :
    fuzzy_match "" t = if t = "" then 10 else 0 := by
  have h0 : ("" : String).data = [] := rfl
  by_cases h : t = ""
  · subst h
    norm_num [fuzzy_match, sm_similarity, pyRound]
  · have hd : t.data ≠ [] := by
      intro hd
      exact h (String.ext (by rw [hd]))
    have hlen : t.data.length ≠ 0 := fun hl => hd (List.length_eq_zero.mp hl)
    rw [if_neg h]
    unfold fuzzy_match sm_similarity
    rw [h0]
    rw [if_neg (by simp only [List.length_nil, Nat.zero_add]; exact hlen)]
    rw [sm_matches_nil_left]
    norm_num [pyRound]

/-- The OCR loop visits every URL of its worklist and its best score is the
running maximum of the candidate scores, seeded with the incoming best. -/
theorem ocrLoop_fetches_and_max (f : String → String) (e : String) :
    ∀ (urls : List String) (bt : String) (bs : ℤ) (acc : List String),
      (ocrLoop f e urls bt bs acc).2 = acc.reverse ++ urls ∧
      (ocrLoop f e urls bt bs acc).1.2 =
        urls.foldl (fun b u => max b (fuzzy_match e (f u))) bs := by
  intro urls
  induction urls with
  | nil => intro bt bs acc; simp [ocrLoop]
  | cons u rest ih =>
    intro bt bs acc
    by_cases hgt : fuzzy_match e (f u) > bs
    · have hmax : max bs (fuzzy_match e (f u)) = fuzzy_match e (f u) :=
        max_eq_right (le_of_lt hgt)
      simp only [ocrLoop, if_pos hgt, List.foldl_cons, hmax]
      exact ⟨by rw [(ih _ _ _).1]; simp, (ih _ _ _).2⟩
    · have hmax : max bs (fuzzy_match e (f u)) = bs := max_eq_left (not_lt.mp hgt)
      simp only [ocrLoop, if_neg hgt, List.foldl_cons, hmax]
      exact ⟨by rw [(ih _ _ _).1]; simp, (ih _ _ _).2⟩

/-- Once the running best score is 10 and the expected text is empty, the OCR
loop keeps the pair consisting of empty text and score 10 to the end. -/
theorem ocrLoop_perfect (f : String → String) :
    ∀ (urls : List String) (acc : List String),
      (ocrLoop f "" urls "" 10 acc).1 = ("", 10) := by
  intro urls
  induction urls with
  | nil => intro acc; simp [ocrLoop]
  | cons u rest ih =>
    intro acc
    have hle : fuzzy_match "" (f u) ≤ 10 := by
      rw [fuzzy_match_empty_expected]; split <;> norm_num
    simp only [ocrLoop, if_neg (not_lt.mpr hle)]
    exact ih _

/-- With an empty expected text and some candidate extracting empty text, the
OCR loop started at score 0 ends at the pair of empty text and score 10. -/
theorem ocrLoop_reaches_perfect (f : String → String) :
    ∀ (urls : List String) (acc : List String),
      (∃ u ∈ urls, f u = "") →
      (ocrLoop f "" urls "" 0 acc).1 = ("", 10) := by
  intro urls
  induction urls with
  | nil => intro acc h; simp at h
  | cons u rest ih =>
    intro acc h
    by_cases hu : f u = ""
    · have h10 : fuzzy_match "" "" = 10 := by
        simpa using fuzzy_match_empty_expected ""
      simp only [ocrLoop, hu, h10]
      rw [if_pos (by norm_num : (10:ℤ) > 0)]
      exact ocrLoop_perfect f rest _
    · have h0 : fuzzy_match "" (f u) = 0 := by
        rw [fuzzy_match_empty_expected]; simp [hu]
      obtain ⟨w, hw, hfw⟩ := h
      have hw' : w ∈ rest := by
        rcases List.mem_cons.mp hw with rfl | hw'
        · exact absurd hfw hu
        · exact hw'
      simp only [ocrLoop, h0]
      rw [if_neg (by norm_num : ¬ ((0:ℤ) > 0))]
      exact ih _ ⟨w, hw', hfw⟩

/-! Claim theorems. -/

/-- C1: the Economic Life method is claimed to nearest-match age-in-years and
return basePrice times the matched retention percent over 100, rounded to two
decimals. The code instead always raises: with a non-empty economic-life table
and age at least 36 months, calculate_local_value reaches the
`max(dep_percent)` expression of apply_economic_life, and Python max applied
to a plain float raises TypeError, so no value is ever produced. -/
theorem economic_life_always_raises (e : EconRow) (es : List EconRow)
    (graph : List GraphRow) (usage : String) (today : CalDate)
    (base_price mileage : ℚ) (reg_date : Option CalDate)
    (h36 : 36 ≤ get_age_months_opt reg_date today) :
    calculate_local_value (e :: es) graph usage today base_price mileage reg_date =
      Except.error "TypeError: float object is not iterable" := by
  unfold calculate_local_value apply_economic_life
  have h3 : ¬ (get_age_months_opt reg_date today < 3) := by omega
  have h36' : ¬ (get_age_months_opt reg_date today < 36) := by omega
  simp [h3, h36']

/-- C1 witness: a concrete local vehicle aged 69 months against a one-row
table ends in the TypeError branch instead of a valuation. -/
theorem economic_life_always_raises_witness :
    36 ≤ get_age_months_opt (some ⟨2021, 1⟩) ⟨2026, 10⟩ ∧
    calculate_local_value [⟨5, 60⟩] [] "private" ⟨2026, 10⟩ 1000000 50000 (some ⟨2021, 1⟩) =
      Except.error "TypeError: float object is not iterable" := by
  exact ⟨by decide,
    economic_life_always_raises ⟨5, 60⟩ [] [] "private" ⟨2026, 10⟩ 1000000 50000
      (some ⟨2021, 1⟩) (by decide)⟩

/-- C2: the fallback map KES to 129.0 is claimed never to be cached, so that
the next get_fx_rates call retries the live providers. In the code the
lru_cache decorator memoizes the fallback return value: after a first call in
which both providers fail, a second call returns the memoized fallback map and
contacts neither provider, even though both would now succeed. -/
theorem fx_fallback_is_memoized :
    (get_fx_rates ⟨0, none, none⟩ ⟨none, none, none⟩).rates = [("KES", 129)] ∧
    (get_fx_rates ⟨0, none, none⟩ ⟨none, none, none⟩).triedA = true ∧
    (get_fx_rates ⟨0, none, none⟩ ⟨none, none, none⟩).triedB = true ∧
    (get_fx_rates ⟨1, some [("KES", 130)], some [("KES", 131)]⟩
        (get_fx_rates ⟨0, none, none⟩ ⟨none, none, none⟩).state).rates = [("KES", 129)] ∧
    (get_fx_rates ⟨1, some [("KES", 130)], some [("KES", 131)]⟩
        (get_fx_rates ⟨0, none, none⟩ ⟨none, none, none⟩).state).triedA = false ∧
    (get_fx_rates ⟨1, some [("KES", 130)], some [("KES", 131)]⟩
        (get_fx_rates ⟨0, none, none⟩ ⟨none, none, none⟩).state).triedB = false := by
  decide

/-- C3: for a local vehicle aged between 3 and 35 months with a non-empty
graph table, the age and mileage rows are nearest-matched independently; when
mileage is at most the usage cap (10000 for private, 20000 for declared
commercial use) the result is basePrice times the average of the two retention
percents over 100, and above the cap it is basePrice times the age retention
alone over 100, rounded to two decimals. -/
theorem graph_method_cap_result (g : GraphRow) (gs : List GraphRow)
    (econ : List EconRow) (usage : String) (today : CalDate)
    (base_price mileage : ℚ) (reg : Option CalDate)
    (h3 : 3 ≤ get_age_months_opt reg today)
    (h36 : get_age_months_opt reg today < 36) :
    calculate_local_value econ (g :: gs) usage today base_price mileage reg =
      Except.ok (round2 (base_price *
        ((if mileage ≤ (if pyLower (pyStrip usage) = "commercial" then 20000 else 10000)
          then
            ((nearestBy (fun r => |r.mileage - mileage|) g gs).mileageDepreciation +
              (nearestBy (fun r => |r.ageMonths - ((get_age_months_opt reg today : ℤ) : ℚ)|)
                g gs).ageDepreciation) / 2
          else
            (nearestBy (fun r => |r.ageMonths - ((get_age_months_opt reg today : ℤ) : ℚ)|)
              g gs).ageDepreciation) / 100))) := by
  have hn3 : ¬ (get_age_months_opt reg today < 3) := by omega
  unfold calculate_local_value
  rw [if_neg hn3, if_pos h36]
  simp only [apply_graph_method]
  congr 1
  split_ifs <;> first | rfl | (exfalso; linarith)

/-- C3 witness: the worked example of the specification, a 14-month-old local
vehicle at 8000 km with nearest rows giving retentions 92 and 95 on a base
price of 2000000, valued at 1870000. -/
theorem graph_method_cap_result_witness :
    3 ≤ get_age_months_opt (some ⟨2025, 8⟩) ⟨2026, 10⟩ ∧
    get_age_months_opt (some ⟨2025, 8⟩) ⟨2026, 10⟩ < 36 ∧
    calculate_local_value [] [⟨12, 5000, 92, 95⟩, ⟨24, 20000, 80, 85⟩] "private"
      ⟨2026, 10⟩ 2000000 8000 (some ⟨2025, 8⟩) = Except.ok 1870000 := by
  have h := graph_method_cap_result ⟨12, 5000, 92, 95⟩ [⟨24, 20000, 80, 85⟩] []
    "private" ⟨2026, 10⟩ 2000000 8000 (some ⟨2025, 8⟩) (by decide) (by decide)
  refine ⟨by decide, by decide, ?_⟩
  rw [h]
  have hc : pyLower (pyStrip "private") ≠ "commercial" := by decide
  norm_num [hc, nearestBy, get_age_months_opt, get_age_months, round2, pyRound]

/-- C4 counterexample: the claim that iteration short-circuits on a perfect
score of 10 is false. With an empty expected text, the first candidate URL
already scores a perfect 10, yet the second candidate URL is still fetched and
OCRd (the fetched-URL trace is both URLs, not just the first). -/
theorem ocr_perfect_score_does_not_stop_iteration :
    fuzzy_match "" ((fun _ : String => "") "u1") = 10 ∧
    (try_multiple_ocr_sources (fun _ => "") [some "u1", some "u2"] "").2 =
      ["u1", "u2"] := by
  have h10 : fuzzy_match "" "" = 10 := by simpa using fuzzy_match_empty_expected ""
  have ht : truthy_urls [some "u1", some "u2"] = ["u1", "u2"] := by decide
  exact ⟨h10, by simp [try_multiple_ocr_sources, ht, ocrLoop, h10]⟩

/-- C4 amended: the loop tracks the running best with strict improvement, but
it never short-circuits: every truthy candidate URL is fetched and OCRd even
after a candidate reaches the perfect score of 10, and the final score is the
maximum candidate score. -/
theorem ocr_iteration_never_short_circuits (f : String → String)
    (images : List (Option String)) (expected : String) :
    (try_multiple_ocr_sources f images expected).2 = truthy_urls images ∧
    (try_multiple_ocr_sources f images expected).1.2 =
      (truthy_urls images).foldl (fun b u => max b (fuzzy_match expected (f u))) 0 := by
  have h := ocrLoop_fetches_and_max f expected (truthy_urls images) "" 0 []
  simpa [try_multiple_ocr_sources] using h

/-- C5 counterexample: the claim that exactly one depreciation_method is
recorded per report is false. An imported, non-face-value report past the
new-entry window goes down the compound-depreciation path, which records no
depreciation_method at all. -/
theorem imported_depreciated_path_records_no_method :
    get_vehicle_data_method_writes ⟨2026, 10⟩ (fun _ _ => 0) []
      ⟨"Japan", some 2018, some 1000000, some 200000, none, some 50000,
        some ⟨2021, 10⟩, none, none, none⟩ = [] := by
  have hl : pyLower (pyStrip "Japan") ≠ "kenya" := by decide
  have hface : is_face_value ⟨2026, 10⟩
      ⟨"Japan", some 2018, some 1000000, some 200000, none, some 50000,
        some ⟨2021, 10⟩, none, none, none⟩ = false := by decide
  norm_num [get_vehicle_data_method_writes, calculate_imported_value, hface, hl,
    imported_age_years, get_age_months_opt, get_age_months, pyOr,
    get_age_from_production_year]

/-- C5 amended: every valuation run records at most one depreciation_method on
the report (never two different methods), but some paths record none. -/
theorem depreciation_method_written_at_most_once (today : CalDate)
    (fpow : ℚ → ℚ → ℚ) (rates : RateMap) (r : VehicleReport) :
    (get_vehicle_data_method_writes today fpow rates r).length ≤ 1 := by
  have himp : (calculate_imported_value today fpow rates r).writes.length ≤ 1 := by
    unfold calculate_imported_value
    by_cases f1 : is_face_value today r
    · simp [f1]
    · by_cases f2 : pyOr r.basePrice 0 ≤ 0
      · simp [f1, f2]
      · by_cases f3 : imported_age_years today r ≤ 7 ∧ get_age_months_opt r.regDate today < 3
        · simp [f1, f2, f3]
        · simp [f1, f2, f3]
  unfold get_vehicle_data_method_writes
  by_cases hl : pyLower (pyStrip r.originCountry) = "kenya" <;>
    by_cases hp : get_age_from_production_year today r.productionYear ≥ 14 <;>
      cases hpre : r.finalDepreciatedValuePreset <;>
        cases hreg : r.regDate <;>
          (simp [hl, hp, hpre, hreg, himp]; try (split_ifs <;> simp))

/-- C6: the Face Value outcome of calculate_imported_value depends only on
face_value_average and aftermarket_additions: two face-value reports agreeing
on those two fields but differing arbitrarily elsewhere, in particular in
base_price, duty and profit_margin, produce the same value, namely the rounded
sum of the two fields. -/
theorem face_value_ignores_price_duty_margin
    (today : CalDate) (fpow : ℚ → ℚ → ℚ) (rates : RateMap) (r1 r2 : VehicleReport)
    (h1 : is_face_value today r1 = true) (h2 : is_face_value today r2 = true)
    (hf : r1.faceValueAverage = r2.faceValueAverage)
    (ha : r1.aftermarketAdditions = r2.aftermarketAdditions) :
    (calculate_imported_value today fpow rates r1).value =
      (calculate_imported_value today fpow rates r2).value ∧
    (calculate_imported_value today fpow rates r1).value =
      some (round2 (pyOr r1.faceValueAverage 0 + pyOr r1.aftermarketAdditions 0)) := by
  refine ⟨?_, ?_⟩ <;> simp [calculate_imported_value, h1, h2, hf, ha]

/-- C6 witness: two 21-year-old imports agreeing on face value 500000 and
aftermarket additions 50000 but with wildly different base price, duty,
profit margin, mileage and registration dates both value to 550000. -/
theorem face_value_ignores_price_duty_margin_witness :
    is_face_value ⟨2026, 10⟩
      ⟨"Japan", some 2005, some 1, some 2, some (1/2), some 1, none,
        some 500000, some 50000, none⟩ = true ∧
    (calculate_imported_value ⟨2026, 10⟩ (fun _ _ => 1) []
        ⟨"Japan", some 2005, some 1, some 2, some (1/2), some 1, none,
          some 500000, some 50000, none⟩).value =
      (calculate_imported_value ⟨2026, 10⟩ (fun _ _ => 1) []
        ⟨"UK", some 2005, some 999, none, none, some 77, some ⟨2010, 1⟩,
          some 500000, some 50000, none⟩).value ∧
    (calculate_imported_value ⟨2026, 10⟩ (fun _ _ => 1) []
        ⟨"Japan", some 2005, some 1, some 2, some (1/2), some 1, none,
          some 500000, some 50000, none⟩).value = some 550000 := by
  have h := face_value_ignores_price_duty_margin ⟨2026, 10⟩ (fun _ _ => 1) []
    ⟨"Japan", some 2005, some 1, some 2, some (1/2), some 1, none,
      some 500000, some 50000, none⟩
    ⟨"UK", some 2005, some 999, none, none, some 77, some ⟨2010, 1⟩,
      some 500000, some 50000, none⟩
    (by decide) (by decide) rfl rfl
  refine ⟨by decide, h.1, ?_⟩
  rw [h.2]
  norm_num [pyOr, round2, pyRound]

/-- C7: for an imported, non-face-value report older than 7 years since
registration with a positive base price, calculate_imported_value never
invokes convert_to_kes and uses the base price as-is as the landed cost. -/
theorem imported_old_vehicle_skips_fx
    (today : CalDate) (fpow : ℚ → ℚ → ℚ) (rates : RateMap) (r : VehicleReport)
    (hface : is_face_value today r = false)
    (hage : 7 < imported_age_years today r)
    (hbase : 0 < pyOr r.basePrice 0) :
    (calculate_imported_value today fpow rates r).usedFx = false ∧
    (calculate_imported_value today fpow rates r).landed = some (pyOr r.basePrice 0) := by
  have h7 : ¬ (imported_age_years today r ≤ 7) := not_le.mpr hage
  have hb : ¬ (pyOr r.basePrice 0 ≤ 0) := not_le.mpr hbase
  simp only [calculate_imported_value, hface, Bool.false_eq_true, if_false, hb, h7,
    false_and, and_false]
  simp [h7, hb]

/-- C7 witness: a 9-year-old import with base price 800000 skips the FX
conversion and lands at exactly 800000. -/
theorem imported_old_vehicle_skips_fx_witness :
    is_face_value ⟨2026, 10⟩
      ⟨"Japan", some 2018, some 800000, some 150000, none, some 25000,
        some ⟨2017, 10⟩, none, none, none⟩ = false ∧
    7 < imported_age_years ⟨2026, 10⟩
      ⟨"Japan", some 2018, some 800000, some 150000, none, some 25000,
        some ⟨2017, 10⟩, none, none, none⟩ ∧
    (calculate_imported_value ⟨2026, 10⟩ (fun _ _ => 1) [("KES", 129)]
        ⟨"Japan", some 2018, some 800000, some 150000, none, some 25000,
          some ⟨2017, 10⟩, none, none, none⟩).usedFx = false ∧
    (calculate_imported_value ⟨2026, 10⟩ (fun _ _ => 1) [("KES", 129)]
        ⟨"Japan", some 2018, some 800000, some 150000, none, some 25000,
          some ⟨2017, 10⟩, none, none, none⟩).landed = some 800000 := by
  have hage : 7 < imported_age_years ⟨2026, 10⟩
      ⟨"Japan", some 2018, some 800000, some 150000, none, some 25000,
        some ⟨2017, 10⟩, none, none, none⟩ := by
    norm_num [imported_age_years, get_age_months_opt, get_age_months]
  have h := imported_old_vehicle_skips_fx ⟨2026, 10⟩ (fun _ _ => 1) [("KES", 129)]
    ⟨"Japan", some 2018, some 800000, some 150000, none, some 25000,
      some ⟨2017, 10⟩, none, none, none⟩
    (by decide) hage (by norm_num [pyOr])
  refine ⟨by decide, hage, h.1, ?_⟩
  rw [h.2]
  norm_num [pyOr]

/-- C8: whenever the demand level resolves to low (typed low, or anything
unrecognized), the value after the demand adjustment equals the value before
it, whatever percent the operator would have supplied. -/
theorem demand_low_yields_basis (basis : ℚ) (levelInput : String) (pctInput : ℚ)
    (h : (prompt_demand_level_and_percent levelInput pctInput).1 = "low") :
    (demand_adjusted_values basis levelInput pctInput).2 =
      (demand_adjusted_values basis levelInput pctInput).1 := by
  have hp : (prompt_demand_level_and_percent levelInput pctInput).2 =
      if (prompt_demand_level_and_percent levelInput pctInput).1 ∈
        (["high", "very high"] : List String) then pctInput else 0 := rfl
  rw [h] at hp
  simp at hp
  simp only [demand_adjusted_values, apply_percent_adjustment]
  rw [hp]
  norm_num

/-- C8 witness: an unrecognized level with a supplied percent of 37 resolves
to low and leaves the basis value 100 unchanged. -/
theorem demand_low_yields_basis_witness :
    (prompt_demand_level_and_percent "weird" 37).1 = "low" ∧
    (demand_adjusted_values 100 "weird" 37).2 = (demand_adjusted_values 100 "weird" 37).1 := by
  refine ⟨by decide, demand_low_yields_basis 100 "weird" 37 (by decide)⟩

/-- C9 counterexample: the claim that ageMonths is non-negative for all
registration dates is false: a syntactically valid registration date in the
future yields a negative age. -/
theorem age_months_negative_for_future_registration :
    get_age_months ⟨2030, 1⟩ ⟨2026, 10⟩ < 0 := by decide

/-- C9 amended: for dates with months in their calendar range, ageMonths is
non-negative whenever the registration date is not after the evaluation date,
and it is monotonically non-decreasing as the evaluation date advances. -/
theorem age_months_nonneg_and_monotone (reg t1 t2 : CalDate)
    (hr1 : 1 ≤ reg.month) (hr2 : reg.month ≤ 12)
    (h11 : 1 ≤ t1.month) (h12 : t1.month ≤ 12)
    (h21 : 1 ≤ t2.month) (h22 : t2.month ≤ 12) :
    (date_le reg t1 → 0 ≤ get_age_months reg t1) ∧
    (date_le t1 t2 → get_age_months reg t1 ≤ get_age_months reg t2) := by
  unfold date_le get_age_months
  constructor
  · rintro (h | ⟨h, h'⟩) <;> omega
  · rintro (h | ⟨h, h'⟩) <;> omega

/-- C9 amended witness: a 2020 registration is non-negative in age in late
2026 and its age does not decrease from October 2026 to January 2027. -/
theorem age_months_nonneg_and_monotone_witness :
    (1:ℤ) ≤ 5 ∧
    0 ≤ get_age_months ⟨2020, 5⟩ ⟨2026, 10⟩ ∧
    get_age_months ⟨2020, 5⟩ ⟨2026, 10⟩ ≤ get_age_months ⟨2020, 5⟩ ⟨2027, 1⟩ := by
  have h := age_months_nonneg_and_monotone ⟨2020, 5⟩ ⟨2026, 10⟩ ⟨2027, 1⟩
    (by decide) (by decide) (by decide) (by decide) (by decide) (by decide)
  exact ⟨by decide, h.1 (by decide), h.2 (by decide)⟩

/-- C10: with an empty expected text, any candidate whose fetch or OCR yields
empty text scores a perfect 10 (the similarity of two empty strings is 1), so
the reconciliation returns empty text with confidence 10 rather than 0. -/
theorem ocr_empty_expected_returns_perfect_score (f : String → String)
    (images : List (Option String))
    (h : ∃ u ∈ truthy_urls images, f u = "") :
    (try_multiple_ocr_sources f images "").1 = ("", 10) := by
  simpa [try_multiple_ocr_sources] using
    ocrLoop_reaches_perfect f (truthy_urls images) [] h

/-- C10 witness: a single candidate URL whose OCR yields empty text against an
empty expected value returns empty text with score 10. -/
theorem ocr_empty_expected_returns_perfect_score_witness :
    (∃ u ∈ truthy_urls [some "u1"], (fun _ : String => "") u = "") ∧
    (try_multiple_ocr_sources (fun _ => "") [some "u1"] "").1 = ("", 10) := by
  have hex : ∃ u ∈ truthy_urls [some "u1"], (fun _ : String => "") u = "" :=
    ⟨"u1", by decide, rfl⟩
  exact ⟨hex, ocr_empty_expected_returns_perfect_score (fun _ => "") [some "u1"] hex⟩
